import Mathlib

/-!
Verification of the TB-gen dashboard (a Streamlit application for exploring a
reference collection of Mycobacterium tuberculosis complex genomes).

The development shallowly embeds the parts of the three source files that the
claims are about:

* `src/app_pages/Reference_dataset.py` — dataframe loading, CSV/TSV export,
  the per-country aggregation and country-coordinate merge feeding the map,
  the selection grid's download path, and the per-sample statistics section;
* `src/app_pages/Phylogeny.py` — the five pre-rendered HTML trees and tabs;
* `src/streamlit_app.py` — the home-page navigation buttons.

Dataframes are modelled as a header (column names) plus rows of scalar cells;
a cell is a pandas scalar: missing (NaN/None), an integer, or a string.
File systems are modelled as partial maps from paths to contents; Streamlit
calls that draw UI are modelled as emitted events; a Python exception is an
`Except.error`.  The pandas `to_csv` / `read_csv` pair is embedded with its
documented CSV semantics (RFC-4180 minimal quoting on write; quote-aware
splitting, blank-line skipping, NA-token and integer-literal inference on
read).
-/

namespace TBGen

/-- A scalar cell of a dataframe: missing value (NaN/None), integer, or
string.  Floating-point cells are outside the model. -/
inductive Value where
  | null : Value
  | int : Int → Value
  | str : String → Value
deriving DecidableEq, Repr

/-- A dataframe: column names plus rows of cells (row i, column j at
position j of row i). -/
structure Frame where
  header : List String
  rows : List (List Value)
deriving DecidableEq, Repr

/-- Cell of row `r` in column `c` (given the frame's header).  Missing
columns and short rows read as `null`. -/
def getCell (header : List String) (r : List Value) (c : String) : Value :=
  match header.findIdx? (· == c) with
  | none => Value.null
  | some i => r.getD i Value.null

/-! ## CSV / TSV writing — `df.to_csv(sep, index=False).encode("utf-8")`

`to_csv` renders a missing value as the empty field, an integer in decimal,
and a string verbatim; a field containing the separator, the quote char or a
line break is wrapped in double quotes with inner quotes doubled
(`csv.QUOTE_MINIMAL`).  Records are separated by a line feed, with a trailing
line feed after the last record.  The model works at the level of strings;
the final `.encode("utf-8")` is injective, so equality of the produced byte
strings is equality of these strings. -/

/-- Double every quote character (the inside of a quoted CSV field). -/
def escQuote : List Char → List Char
  | [] => []
  | c :: cs => if c = '"' then '"' :: '"' :: escQuote cs else c :: escQuote cs

/-- A field is quoted iff it contains the separator, a quote or a line
break (csv.QUOTE_MINIMAL). -/
def needsQuote (sep : Char) (s : List Char) : Bool :=
  s.any fun c => c = sep || c = '"' || c = '\n' || c = '\r'

/-- How `to_csv` renders a single cell before quoting. -/
def renderCell : Value → String
  | Value.null => ""
  | Value.int n => toString n
  | Value.str s => s

/-- One CSV field: raw text, quoted when needed. -/
def renderField (sep : Char) (s : String) : List Char :=
  if needsQuote sep s.toList then '"' :: (escQuote s.toList ++ ['"']) else s.toList

/-- One CSV record: fields joined by the separator. -/
def renderRecord (sep : Char) : List String → List Char
  | [] => []
  | [s] => renderField sep s
  | s :: s' :: rest => renderField sep s ++ sep :: renderRecord sep (s' :: rest)

/-- The data records, each followed by a line feed. -/
def renderRows (sep : Char) : List (List Value) → List Char
  | [] => []
  | r :: rs => renderRecord sep (r.map renderCell) ++ '\n' :: renderRows sep rs

/-- `df.to_csv(sep=sep, index=False)`: header record then data records. -/
def renderTable (sep : Char) (f : Frame) : String :=
  List.asString (renderRecord sep f.header ++ '\n' :: renderRows sep f.rows)

/-- `convert_df_to_csv` (Reference_dataset.py): comma-separated export of the
dataframe without the index. -/
def convert_df_to_csv (df : Frame) : String :=
  renderTable ',' df

/-- `convert_df_to_tsv` (Reference_dataset.py): tab-separated export of the
dataframe without the index. -/
def convert_df_to_tsv (df : Frame) : String :=
  renderTable '\t' df

/-! ## CSV / TSV reading — `pd.read_csv(sep=sep)`

The reader splits the byte stream into records and fields respecting RFC-4180
quoting, skips blank lines, takes the first record as the header, and infers
cell values: a default NA token reads as a missing value, an integer literal
as an integer, anything else as a string. -/

/-- Scanner state: inside a quoted field, just after a closing quote, or
outside quotes. -/
inductive PMode where
  | normal : PMode
  | quoted : PMode
  | afterQuote : PMode
deriving DecidableEq, Repr

/-- Quote-aware record/field splitter.  `f` is the field read so far, `r` the
fields of the current record. -/
def pAll (sep : Char) : List Char → PMode → List Char → List (List Char) →
    List (List (List Char))
  | [], m, f, r =>
    if m == PMode.normal && f.isEmpty && r.isEmpty then [] else [r ++ [f]]
  | c :: cs, PMode.quoted, f, r =>
    if c = '"' then pAll sep cs PMode.afterQuote f r
    else pAll sep cs PMode.quoted (f ++ [c]) r
  | c :: cs, PMode.afterQuote, f, r =>
    if c = '"' then pAll sep cs PMode.quoted (f ++ ['"']) r
    else if c = sep then pAll sep cs PMode.normal [] (r ++ [f])
    else if c = '\n' then (r ++ [f]) :: pAll sep cs PMode.normal [] []
    else pAll sep cs PMode.normal (f ++ [c]) r
  | c :: cs, PMode.normal, f, r =>
    if c = '"' then pAll sep cs PMode.quoted f r
    else if c = sep then pAll sep cs PMode.normal [] (r ++ [f])
    else if c = '\n' then (r ++ [f]) :: pAll sep cs PMode.normal [] []
    else pAll sep cs PMode.normal (f ++ [c]) r

/-- Split an input into records of raw field texts; blank lines (records of a
single empty field) are skipped, as read_csv does by default. -/
def parseRecords (sep : Char) (s : String) : List (List String) :=
  (((pAll sep s.toList PMode.normal [] []).filter
      (fun g => g ≠ [([] : List Char)])).map (fun g => g.map List.asString))

/-- The default NA tokens of read_csv: these field texts read as missing. -/
def naTokens : List String :=
  ["", "#N/A", "#N/A N/A", "#NA", "-1.#IND", "-1.#QNAN", "-NaN", "-nan",
   "1.#IND", "1.#QNAN", "<NA>", "N/A", "NA", "NULL", "NaN", "None",
   "n/a", "nan", "null"]

/-- Integer literal: optional sign then one or more decimal digits. -/
def isIntLit : List Char → Bool
  | [] => false
  | c :: rest =>
    if c = '-' || c = '+' then !rest.isEmpty && rest.all Char.isDigit
    else (c :: rest).all Char.isDigit

/-- Value of a digit run. -/
def digitsVal (cs : List Char) : Nat :=
  cs.foldl (fun a c => a * 10 + (c.toNat - '0'.toNat)) 0

/-- Value of an integer literal. -/
def intLitVal : List Char → Int
  | '-' :: rest => -(digitsVal rest : Int)
  | '+' :: rest => (digitsVal rest : Int)
  | cs => (digitsVal cs : Int)

/-- Type inference of read_csv on one field text, restricted to the value
forms of the model: NA token to missing, integer literal to integer,
anything else kept as a string. -/
def inferValue (s : String) : Value :=
  if s ∈ naTokens then Value.null
  else if isIntLit s.toList then Value.int (intLitVal s.toList)
  else Value.str s

/-- `pd.read_csv(sep=sep)` on a text: first record is the header (no
inference), remaining records are rows of inferred cells; an input with no
records raises EmptyDataError (`none`). -/
def parseTable (sep : Char) (s : String) : Option Frame :=
  match parseRecords sep s with
  | [] => none
  | h :: rs => some ⟨h, rs.map (fun g => g.map inferValue)⟩

/-- Strip surrounding spaces and tabs (how the C parser tolerates padding
around numeric tokens). -/
def trimChars (s : List Char) : List Char :=
  ((s.dropWhile Char.isWhitespace).reverse.dropWhile Char.isWhitespace).reverse

/-- Field texts that read_csv would coerce to a numeric value outside the
model (floats, exponents, padded integers): every non-space character is a
digit, sign, decimal point or exponent letter. -/
def numericish (s : String) : Bool :=
  let t := trimChars s.toList
  !t.isEmpty &&
    t.all fun c => c.isDigit || c = '+' || c = '-' || c = '.' || c = 'e' || c = 'E'

/-- Field texts read_csv coerces to booleans, infinities or missing
values. -/
def specialTokens : List String :=
  naTokens ++
    ["True", "TRUE", "true", "False", "FALSE", "false",
     "inf", "Inf", "INF", "-inf", "-Inf", "-INF",
     "Infinity", "-Infinity", "infinity", "-infinity"]

/-- A cell survives write-then-read unchanged: its rendered text re-infers to
the same value, and (for strings) the text is not one read_csv would coerce
to a numeric, boolean, infinite or missing value. -/
def stableCell (v : Value) : Bool :=
  (inferValue (renderCell v) == v) &&
    (match v with
     | Value.str s =>
       !numericish s && !(specialTokens.contains (trimChars s.toList).asString)
     | _ => true)

/-- read_csv infers a dtype per column, not per cell: a column is faithfully
re-typed when it mixes no integer cells with string cells (an integer cell in
an otherwise textual column would be read back as text). -/
def columnOk (col : List Value) : Bool :=
  (col.all fun v => match v with | Value.str _ => false | _ => true) ||
    (col.all fun v => match v with | Value.int _ => false | _ => true)

/-- Column `j` of the rows of a frame. -/
def columnAt (f : Frame) (j : Nat) : List Value :=
  f.rows.map (fun r => r.getD j Value.null)

/-! ## `get_mapping_data` (Reference_dataset.py)

The aggregation feeding the choropleth: select the Sample and Country of
isolation columns, group by country and count.  pandas groupby drops rows
whose group key is missing, and `.count()` counts the non-missing Sample
entries of each group. -/

/-- The (Sample, Country of isolation) projection of the dataset. -/
def samplePairs (f : Frame) : List (Value × Value) :=
  f.rows.map fun r =>
    (getCell f.header r "Sample", getCell f.header r "Country of isolation")

/-- `cnt_samples`: per-country number of samples —
dataset[[Sample, Country]].groupby(Country).count().  Group keys are the
distinct non-missing countries; each count is the number of rows of that
country with a non-missing Sample. -/
def cnt_samples (f : Frame) : List (Value × Nat) :=
  let pairs := samplePairs f
  let keys := ((pairs.map Prod.snd).filter (fun v => v ≠ Value.null)).dedup
  keys.map fun k =>
    (k, (pairs.filter fun p => p.2 == k && p.1 != Value.null).length)

/-- A row of the countries.csv lookup table (columns country, name,
latitude, longitude; `country` is dropped right after the merge). -/
structure CountryRow where
  country : Value
  name : Value
  latitude : Value
  longitude : Value
deriving DecidableEq, Repr

/-- The columns of the dataset that `get_mapping_data` selects before the
left merge with the coordinates table. -/
structure SmpRow where
  sample : Value
  country_of_isolation : Value
  level1 : Value
  level2 : Value
  level3 : Value
  level4 : Value
  level5 : Value
deriving DecidableEq, Repr

/-- A row of the merged point-map table (left columns plus the matched
name/latitude/longitude; the lookup's `country` column is dropped). -/
structure MergedRow where
  sample : Value
  country_of_isolation : Value
  level1 : Value
  level2 : Value
  level3 : Value
  level4 : Value
  level5 : Value
  name : Value
  latitude : Value
  longitude : Value
deriving DecidableEq, Repr

/-- Left-merge of one dataset row with the coordinates table on
Country of isolation = name: one output row per matching lookup row, or a
single row with missing right columns when nothing matches.  (pandas treats
two NaN keys as matching.) -/
def mergeRow (countries : List CountryRow) (r : SmpRow) : List MergedRow :=
  let ms := countries.filter fun c => c.name == r.country_of_isolation
  if ms.isEmpty then
    [{ sample := r.sample, country_of_isolation := r.country_of_isolation,
       level1 := r.level1, level2 := r.level2, level3 := r.level3,
       level4 := r.level4, level5 := r.level5,
       name := Value.null, latitude := Value.null, longitude := Value.null }]
  else
    ms.map fun c =>
      { sample := r.sample, country_of_isolation := r.country_of_isolation,
        level1 := r.level1, level2 := r.level2, level3 := r.level3,
        level4 := r.level4, level5 := r.level5,
        name := c.name, latitude := c.latitude, longitude := c.longitude }

/-- `smp_data`: the point-map table — left merge with the coordinates
lookup, then keep only the rows whose matched `name` is present
(smp_data[smp_data["name"].notna()]). -/
def smp_data (dataset : List SmpRow) (countries : List CountryRow) :
    List MergedRow :=
  ((dataset.map (mergeRow countries)).flatten).filter
    fun m => m.name != Value.null

/-! ## UI events

Streamlit calls that draw something are modelled as emitted events; the data
handed to `st.download_button` is the event's payload. -/

/-- One Streamlit UI emission. -/
inductive Event where
  | warning (msg : String) : Event
  | info (msg : String) : Event
  | download (label fileName data : String) : Event
  | vcfTable (content : String) : Event
  | metricShown (label : String) (value : Value) : Event
  | htmlComponent (content : String) : Event
deriving DecidableEq, Repr

/-! ## `show_dataset` (Reference_dataset.py), selection handling

Lines 236-277: the selected rows are shown in a second grid, the helper
column `_selectedRowNodeInfo` is dropped inside a try/except KeyError whose
handler shows an info message, the selection is exported to TSV/CSV, and an
empty selection shows a warning instead of the two download buttons. -/

/-- `df.drop(columns=[c])`: KeyError when the label is absent. -/
def dropColumnOrKeyError (f : Frame) (c : String) : Except String Frame :=
  if c ∈ f.header then
    match f.header.findIdx? (· == c) with
    | none => Except.error "KeyError"
    | some i => Except.ok ⟨f.header.eraseIdx i, f.rows.map (fun r => r.eraseIdx i)⟩
  else Except.error "KeyError"

/-- The selection-processing tail of `show_dataset`: drop the marker column
(recovering from KeyError with an info message), convert to TSV/CSV, then
either warn on an empty selection or offer the two downloads. -/
def show_dataset_selection (sel : Frame) : List Event × Frame :=
  let step :=
    match dropColumnOrKeyError sel "_selectedRowNodeInfo" with
    | Except.ok d => (([] : List Event), d)
    | Except.error _ => ([Event.info "Select samples from the main dataframe"], sel)
  let d := step.2
  let tsv := convert_df_to_tsv d
  let csv := convert_df_to_csv d
  if d.rows.isEmpty then
    (step.1 ++ [Event.warning "Subset dataframe is empty"], d)
  else
    (step.1 ++
      [Event.download "💾 Download subset as TSV" "subsetted_dataset.tsv" tsv,
       Event.download "💾 Download subset as CSV" "subsetted_dataset.csv" csv], d)

/-! ## `sample_stats` (Reference_dataset.py)

The statistics section: a sample is picked, the dataset is filtered to the
rows of that sample, the optional VCF viewer/download runs inside a
try/except FileNotFoundError, and twelve metric cards convert the filtered
single-row frame to scalars. -/

/-- Path of the per-sample variant file. -/
def vcfPath (sample : String) : String :=
  "./data/VCF/" ++ sample ++ ".vcf.gz"

/-- The Show Variants branch: load and display the VCF and offer it for
download; a missing file (FileNotFoundError from `open`) is caught and shown
as a warning.  `fs` maps a path to the file's bytes when the file exists. -/
def sampleStatsVcfSection (fs : String → Option String) (sample : String) :
    List Event :=
  match fs (vcfPath sample) with
  | none => [Event.warning "VCF file in not available"]
  | some content =>
    [Event.vcfTable content,
     Event.download "Download calls in VCF format" (sample ++ ".vcf.gz") content]

/-- The values of column `c` over the filtered rows. -/
def seriesOf (header : List String) (rows : List (List Value)) (c : String) :
    List Value :=
  rows.map fun r => getCell header r c

/-- Converting a Series to a scalar (`int(...)`, `float(...)`, `.item()`)
succeeds only when the Series has exactly one element; otherwise Python
raises (TypeError/ValueError). -/
def asSingleton : List Value → Except String Value
  | [v] => Except.ok v
  | _ => Except.error "cannot convert non-unit Series to scalar"

/-- `int(x)` on the scalar: missing and non-numeric text raise. -/
def intOfValue : Value → Except String Int
  | Value.int n => Except.ok n
  | Value.str s =>
    if isIntLit s.toList then Except.ok (intLitVal s.toList)
    else Except.error "invalid literal for int"
  | Value.null => Except.error "cannot convert NA to integer"

/-- `int(series[c])` as the metric cards use it. -/
def intMetric (header : List String) (rows : List (List Value)) (c : String) :
    Except String Value :=
  (asSingleton (seriesOf header rows c)).bind fun v =>
    (intOfValue v).map Value.int

/-- `float(round(series[c], 2))`: needs the one-element Series; a textual
cell raises in `round`.  The numeric rounding itself is value-preserving in
the model (no float cells). -/
def floatMetric (header : List String) (rows : List (List Value)) (c : String) :
    Except String Value :=
  (asSingleton (seriesOf header rows c)).bind fun v =>
    match v with
    | Value.str _ => Except.error "unsupported operand type for round"
    | v => Except.ok v

/-- `series[c].item()`: exactly one element, returned as is. -/
def itemMetric (header : List String) (rows : List (List Value)) (c : String) :
    Except String Value :=
  asSingleton (seriesOf header rows c)

/-- The twelve metric cards of `sample_stats` on the filtered frame, in
source order; the first failing conversion raises out of the function (there
is no handler around this part). -/
def sample_stats_metrics (header : List String) (rows : List (List Value)) :
    Except String (List Event) := do
  let snps ← intMetric header rows "no. of SNPs"
  let gc ← intMetric header rows "%GC"
  let totalSeq ← intMetric header rows "Total sequences"
  let avgLen ← floatMetric header rows "Average sequence length"
  let readsMapped ← floatMetric header rows "%Reads mapped"
  let avgCov ← floatMetric header rows "Average coverage depth"
  let countryV ← itemMetric header rows "Country of isolation"
  let l1 ← itemMetric header rows "level 1"
  let l2 ← itemMetric header rows "level 2"
  let l3 ← itemMetric header rows "level 3"
  let l4 ← itemMetric header rows "level 4"
  let l5 ← itemMetric header rows "level 5"
  return [Event.metricShown "SNPs" snps,
          Event.metricShown "GC %" gc,
          Event.metricShown "Total Sequences" totalSeq,
          Event.metricShown "Average sequence length" avgLen,
          Event.metricShown "Mapped Reads %" readsMapped,
          Event.metricShown "Average coverage depth" avgCov,
          Event.metricShown "Country of Isolation" countryV,
          Event.metricShown "Level 1" l1,
          Event.metricShown "Level 2" l2,
          Event.metricShown "Level 3" l3,
          Event.metricShown "Level 4" l4,
          Event.metricShown "Level 5" l5]

/-- The rows of the dataset whose Sample equals the selected name
(dataset[dataset["Sample"] == sample_filter]). -/
def filterSample (f : Frame) (sample : String) : List (List Value) :=
  f.rows.filter fun r => getCell f.header r "Sample" == Value.str sample

/-- `sample_stats` after the sample is selected: the guarded VCF section
(when Show Variants is checked) followed by the unguarded metric cards. -/
def sample_stats (fs : String → Option String) (f : Frame) (sample : String)
    (showVariants : Bool) : Except String (List Event) := do
  let vcfEvents := if showVariants then sampleStatsVcfSection fs sample else []
  let metricEvents ← sample_stats_metrics f.header (filterSample f sample)
  return vcfEvents ++ metricEvents

/-! ## Phylogeny page (Phylogeny.py) -/

/-- The five pre-rendered tree files, in tab order. -/
def treeFiles : List String :=
  ["./data/trees/lineage.1.tree.html",
   "./data/trees/lineage.2.tree.html",
   "./data/trees/lineage.3.tree.html",
   "./data/trees/lineage.4.tree.html",
   "./data/trees/lineage.5.Animal.tree.html"]

/-- The five tab labels, in order. -/
def tabLabels : List String :=
  ["Lineage 1", "Lineage 2", "Lineage 3", "Lineage 4", "Lineage 5-Animal"]

/-- One `show_lineageN_tree`: open the file, read it, and hand the content
unchanged to `components.html`; a missing file raises. -/
def show_lineage_tree (fs : String → Option String) (path : String) :
    Except String Event :=
  match fs path with
  | none => Except.error "FileNotFoundError"
  | some content => Except.ok (Event.htmlComponent content)

/-- `arrange_tabs`: five tabs, each embedding its lineage's tree. -/
def arrange_tabs (fs : String → Option String) :
    Except String (List (String × Event)) := do
  let e1 ← show_lineage_tree fs "./data/trees/lineage.1.tree.html"
  let e2 ← show_lineage_tree fs "./data/trees/lineage.2.tree.html"
  let e3 ← show_lineage_tree fs "./data/trees/lineage.3.tree.html"
  let e4 ← show_lineage_tree fs "./data/trees/lineage.4.tree.html"
  let e5 ← show_lineage_tree fs "./data/trees/lineage.5.Animal.tree.html"
  return [("Lineage 1", e1), ("Lineage 2", e2), ("Lineage 3", e3),
          ("Lineage 4", e4), ("Lineage 5-Animal", e5)]

/-! ## Home page navigation (streamlit_app.py) -/

/-- The pages the three home buttons switch to. -/
inductive TargetPage where
  | genotypeLineage : TargetPage
  | phylogenyPage : TargetPage
  | referenceDataset : TargetPage
deriving DecidableEq, Repr

/-- The labels of the three navigation buttons, in layout order. -/
def homeButtonLabels : List String :=
  ["Genotype VCF", "Explore Phylogeny", "Reference Dataset"]

/-- `buttons`: which page the run switches to, given which buttons were
pressed this rerun.  `switch_page` interrupts the script, so the first
pressed button in source order wins; with no press the page is unchanged. -/
def buttons (genotype_user_data phylogeny dataset : Bool) : Option TargetPage :=
  if genotype_user_data then some TargetPage.genotypeLineage
  else if phylogeny then some TargetPage.phylogenyPage
  else if dataset then some TargetPage.referenceDataset
  else none

/-! Sanity checks of the embedding on concrete inputs. -/

example : convert_df_to_csv ⟨["A", "B"], [[Value.int 1, Value.str "x"]]⟩ =
    "A,B\n1,x\n" := by decide

example : convert_df_to_csv ⟨["A"], [[Value.str "a,b"]]⟩ = "A\n\"a,b\"\n" := by
  decide

example : parseTable ',' "A,B\n1,x\n" =
    some ⟨["A", "B"], [[Value.int 1, Value.str "x"]]⟩ := by decide

example : parseTable ',' "A\n\"a,\"\"b\"\n" =
    some ⟨["A"], [[Value.str "a,\"b"]]⟩ := by decide

/-! ## Counting helpers for the per-country aggregation -/

theorem filter_length_split {α : Type} (l : List α) (c1 c2 c3 : α → Bool)
    (h3 : ∀ a, c3 a = (c1 a || c2 a)) (hdisj : ∀ a, ¬(c1 a = true ∧ c2 a = true)) :
    (l.filter c1).length + (l.filter c2).length = (l.filter c3).length := by
  induction l with
  | nil => rfl
  | cons a l ih =>
    cases hc1 : c1 a <;> cases hc2 : c2 a
    · simp [List.filter_cons, hc1, hc2, h3 a]
      omega
    · simp [List.filter_cons, hc1, hc2, h3 a]
      omega
    · simp [List.filter_cons, hc1, hc2, h3 a]
      omega
    · exact absurd ⟨hc1, hc2⟩ (hdisj a)

theorem count_split (k : Value) (ks : List Value) (hk : k ∉ ks) (l : List (Value × Value)) :
    (l.filter fun p => p.2 == k && p.1 != Value.null).length
      + (l.filter fun p => p.1 != Value.null && decide (p.2 ∈ ks)).length
    = (l.filter fun p => p.1 != Value.null && decide (p.2 ∈ k :: ks)).length := by
  apply filter_length_split
  · intro p
    by_cases h2 : p.2 = k <;> by_cases h1 : p.1 = Value.null <;>
      by_cases hc : p.2 ∈ ks <;> simp_all
  · intro p ⟨hp1, hp2⟩
    simp only [Bool.and_eq_true, beq_iff_eq, decide_eq_true_eq] at hp1 hp2
    exact hk (hp1.1 ▸ hp2.2)

theorem sum_counts (keys : List Value) (hnd : keys.Nodup) (l : List (Value × Value)) :
    (keys.map (fun k =>
        (l.filter fun p => p.2 == k && p.1 != Value.null).length)).sum
    = (l.filter fun p => p.1 != Value.null && decide (p.2 ∈ keys)).length := by
  induction keys with
  | nil => simp
  | cons k ks ih =>
    have hk : k ∉ ks := (List.nodup_cons.mp hnd).1
    have ihs := ih (List.nodup_cons.mp hnd).2
    simp only [List.map_cons, List.sum_cons, ihs]
    exact count_split k ks hk l

/-! ## Claim theorems -/

/-- Claim C1, counterexample: a table with one row whose Country of
isolation is missing has per-country counts summing to 0, not to the row
count 1 — pandas groupby drops rows with a missing group key. -/
theorem country_counts_sum_counterexample :
    ¬ (((cnt_samples ⟨["Sample", "Country of isolation"],
          [[Value.str "S1", Value.null]]⟩).map Prod.snd).sum
        = (⟨["Sample", "Country of isolation"],
            [[Value.str "S1", Value.null]]⟩ : Frame).rows.length) := by
  decide

/-- Claim C1 (amended): for every table, the per-country sample counts of
get_mapping_data sum to the number of rows whose Sample and Country of
isolation are both non-missing; this equals the total row count exactly when
those two columns have no missing entries. -/
theorem country_counts_sum (f : Frame) :
    ((cnt_samples f).map Prod.snd).sum =
      ((samplePairs f).filter fun p =>
        p.1 != Value.null && p.2 != Value.null).length := by
  have hmap : (cnt_samples f).map Prod.snd
      = (((samplePairs f).map Prod.snd).filter (fun v => v ≠ Value.null)).dedup.map
          (fun k =>
            ((samplePairs f).filter fun p => p.2 == k && p.1 != Value.null).length) := by
    unfold cnt_samples
    rw [List.map_map]
    rfl
  rw [hmap, sum_counts _ (List.nodup_dedup _) (samplePairs f)]
  refine congrArg List.length (List.filter_congr ?_)
  intro p hp
  by_cases h1 : p.1 = Value.null
  · simp [h1]
  · by_cases h2 : p.2 = Value.null
    · have hmem : ¬ (p.2 ∈ ((samplePairs f).map Prod.snd).filter
          fun v => v ≠ Value.null) := by
        simp [h2]
      simp [List.mem_dedup, hmem, h2]
    · have hmem : p.2 ∈ ((samplePairs f).map Prod.snd).filter
          fun v => v ≠ Value.null := by
        refine List.mem_filter.mpr ⟨List.mem_map.mpr ⟨p, hp, rfl⟩, by simp [h2]⟩
      have hdd := List.mem_dedup.mpr hmem
      have hb : decide (p.2 ∈ (((samplePairs f).map Prod.snd).filter
          fun v => v ≠ Value.null).dedup) = true := decide_eq_true hdd
      simp [hb, h2]

/-- A Series-to-scalar conversion on anything but a one-element Series
raises. -/
theorem asSingleton_not_single {l : List Value} (h : l.length ≠ 1) :
    asSingleton l = Except.error "cannot convert non-unit Series to scalar" := by
  match l with
  | [] => rfl
  | [v] => exact absurd rfl h
  | v :: w :: rest => rfl

/-- Claim C9: the metric cards of sample_stats need the selected sample name
to match exactly one row: when the name matches zero or several rows, the
very first scalar conversion raises and the error propagates out of
sample_stats uncaught (the try/except covers only the VCF section). -/
theorem sample_stats_requires_unique_sample (fs : String → Option String)
    (f : Frame) (sample : String) (showVariants : Bool)
    (h : (filterSample f sample).length ≠ 1) :
    sample_stats fs f sample showVariants =
      Except.error "cannot convert non-unit Series to scalar" := by
  have hs : (seriesOf f.header (filterSample f sample) "no. of SNPs").length ≠ 1 := by
    simpa [seriesOf] using h
  have h1 : intMetric f.header (filterSample f sample) "no. of SNPs" =
      Except.error "cannot convert non-unit Series to scalar" := by
    unfold intMetric
    rw [asSingleton_not_single hs]
    rfl
  unfold sample_stats sample_stats_metrics
  rw [h1]
  rfl

/-- Claim C9 witness: a dataset with no row at all for the selected sample
makes sample_stats raise. -/
theorem sample_stats_requires_unique_sample_witness :
    (filterSample ⟨["Sample"], []⟩ "S1").length ≠ 1 ∧
    sample_stats (fun _ => none) ⟨["Sample"], []⟩ "S1" false =
      Except.error "cannot convert non-unit Series to scalar" :=
  ⟨by decide,
   sample_stats_requires_unique_sample (fun _ => none) ⟨["Sample"], []⟩ "S1" false
     (by decide)⟩

/-- Claim C4: when the per-sample VCF file is absent, the FileNotFoundError
is caught and sample_stats shows a warning instead of crashing. -/
theorem missing_vcf_shows_warning (fs : String → Option String) (sample : String)
    (h : fs (vcfPath sample) = none) :
    sampleStatsVcfSection fs sample =
      [Event.warning "VCF file in not available"] := by
  simp [sampleStatsVcfSection, h]

/-- Claim C4 witness: with an empty file system the section emits exactly
the warning. -/
theorem missing_vcf_shows_warning_witness :
    (fun _ : String => (none : Option String)) (vcfPath "S1") = none ∧
    sampleStatsVcfSection (fun _ => none) "S1" =
      [Event.warning "VCF file in not available"] :=
  ⟨rfl, missing_vcf_shows_warning (fun _ => none) "S1" rfl⟩

/-- Claim C6: the VCF download is a passthrough — the data handed to the
download button is exactly the content of ./data/VCF/(sample).vcf.gz as it
is on disk, unchanged. -/
theorem vcf_download_passthrough (fs : String → Option String)
    (sample content : String) (h : fs (vcfPath sample) = some content) :
    sampleStatsVcfSection fs sample =
      [Event.vcfTable content,
       Event.download "Download calls in VCF format" (sample ++ ".vcf.gz")
         content] := by
  simp [sampleStatsVcfSection, h]

/-- Claim C6 witness: a concrete one-file file system. -/
theorem vcf_download_passthrough_witness :
    (fun p : String => if p = vcfPath "S1" then some "VCFBYTES" else none)
        (vcfPath "S1") = some "VCFBYTES" ∧
    sampleStatsVcfSection
        (fun p => if p = vcfPath "S1" then some "VCFBYTES" else none) "S1" =
      [Event.vcfTable "VCFBYTES",
       Event.download "Download calls in VCF format" ("S1" ++ ".vcf.gz")
         "VCFBYTES"] :=
  ⟨by decide,
   vcf_download_passthrough
     (fun p => if p = vcfPath "S1" then some "VCFBYTES" else none)
     "S1" "VCFBYTES" (by decide)⟩

/-- Claim C5: the Phylogeny page opens the five static tree files and embeds
each one's content verbatim in one of the five per-lineage tabs. -/
theorem phylogeny_five_tabs (fs : String → Option String)
    (c1 c2 c3 c4 c5 : String)
    (h1 : fs "./data/trees/lineage.1.tree.html" = some c1)
    (h2 : fs "./data/trees/lineage.2.tree.html" = some c2)
    (h3 : fs "./data/trees/lineage.3.tree.html" = some c3)
    (h4 : fs "./data/trees/lineage.4.tree.html" = some c4)
    (h5 : fs "./data/trees/lineage.5.Animal.tree.html" = some c5) :
    treeFiles.length = 5 ∧
    arrange_tabs fs = Except.ok
      [("Lineage 1", Event.htmlComponent c1),
       ("Lineage 2", Event.htmlComponent c2),
       ("Lineage 3", Event.htmlComponent c3),
       ("Lineage 4", Event.htmlComponent c4),
       ("Lineage 5-Animal", Event.htmlComponent c5)] := by
  refine ⟨rfl, ?_⟩
  simp only [arrange_tabs, show_lineage_tree, h1, h2, h3, h4, h5]
  rfl

/-- Claim C5 witness: a file system holding the same page for all paths. -/
theorem phylogeny_five_tabs_witness :
    (fun _ : String => some "T") "./data/trees/lineage.1.tree.html" = some "T" ∧
    treeFiles.length = 5 ∧
    arrange_tabs (fun _ => some "T") = Except.ok
      [("Lineage 1", Event.htmlComponent "T"),
       ("Lineage 2", Event.htmlComponent "T"),
       ("Lineage 3", Event.htmlComponent "T"),
       ("Lineage 4", Event.htmlComponent "T"),
       ("Lineage 5-Animal", Event.htmlComponent "T")] :=
  ⟨rfl, phylogeny_five_tabs (fun _ => some "T") "T" "T" "T" "T" "T"
    rfl rfl rfl rfl rfl⟩

/-- Claim C7: the home page has exactly three navigation buttons; pressing
each switches to its page (Genotype lineage, Phylogeny, Reference dataset
respectively) and pressing none leaves the page unchanged. -/
theorem home_buttons_navigation :
    homeButtonLabels.length = 3 ∧
    buttons true false false = some TargetPage.genotypeLineage ∧
    buttons false true false = some TargetPage.phylogenyPage ∧
    buttons false false true = some TargetPage.referenceDataset ∧
    buttons false false false = none :=
  ⟨rfl, rfl, rfl, rfl, rfl⟩

/-- Claim C8: the memoized converters are deterministic — on equal
dataframes they return equal byte strings, so a cached result is
indistinguishable from recomputation. -/
theorem convert_deterministic (d1 d2 : Frame) (h : d1 = d2) :
    convert_df_to_csv d1 = convert_df_to_csv d2 ∧
    convert_df_to_tsv d1 = convert_df_to_tsv d2 := by
  subst h
  exact ⟨rfl, rfl⟩

/-- Claim C8 witness: two structurally equal frames convert identically. -/
theorem convert_deterministic_witness :
    (⟨["A"], [[Value.int 1]]⟩ : Frame) = ⟨["A"], [[Value.int 1]]⟩ ∧
    (convert_df_to_csv ⟨["A"], [[Value.int 1]]⟩ =
        convert_df_to_csv ⟨["A"], [[Value.int 1]]⟩ ∧
      convert_df_to_tsv ⟨["A"], [[Value.int 1]]⟩ =
        convert_df_to_tsv ⟨["A"], [[Value.int 1]]⟩) :=
  ⟨rfl, convert_deterministic ⟨["A"], [[Value.int 1]]⟩ ⟨["A"], [[Value.int 1]]⟩ rfl⟩

/-- Claim C10: every row of the point-map table produced by get_mapping_data
carries the coordinates of a matching row of the country lookup (its matched
name equals its Country of isolation and is present), and a dataset row
whose country matches no lookup name contributes no row at all. -/
theorem smp_data_coords (dataset : List SmpRow) (countries : List CountryRow) :
    (∀ m ∈ smp_data dataset countries,
      m.name ≠ Value.null ∧ m.name = m.country_of_isolation ∧
      ∃ c ∈ countries, c.name = m.name ∧ c.latitude = m.latitude ∧
        c.longitude = m.longitude) ∧
    (∀ r ∈ dataset,
      (∀ c ∈ countries, ¬(c.name = r.country_of_isolation ∧ c.name ≠ Value.null)) →
      (mergeRow countries r).filter (fun m => m.name != Value.null) = []) := by
  constructor
  · intro m hm
    unfold smp_data at hm
    rw [List.mem_filter] at hm
    obtain ⟨hmem, hpred⟩ := hm
    have hname : m.name ≠ Value.null := by simpa using hpred
    rw [List.mem_flatten] at hmem
    obtain ⟨l, hl, hml⟩ := hmem
    rw [List.mem_map] at hl
    obtain ⟨r, hr, rfl⟩ := hl
    unfold mergeRow at hml
    by_cases he : (countries.filter fun c => c.name == r.country_of_isolation).isEmpty
    · rw [if_pos he] at hml
      rw [List.mem_singleton] at hml
      exact absurd (by rw [hml]) hname
    · rw [if_neg he] at hml
      rw [List.mem_map] at hml
      obtain ⟨c, hc, rfl⟩ := hml
      rw [List.mem_filter] at hc
      obtain ⟨hcc, hceq⟩ := hc
      have heq : c.name = r.country_of_isolation := by simpa using hceq
      exact ⟨hname, heq, c, hcc, rfl, rfl, rfl⟩
  · intro r hr hnone
    unfold mergeRow
    by_cases he : (countries.filter fun c => c.name == r.country_of_isolation).isEmpty
    · rw [if_pos he]
      rfl
    · rw [if_neg he]
      rw [List.filter_eq_nil_iff]
      intro m hm
      rw [List.mem_map] at hm
      obtain ⟨c, hc, rfl⟩ := hm
      rw [List.mem_filter] at hc
      obtain ⟨hcc, hceq⟩ := hc
      have heq : c.name = r.country_of_isolation := by simpa using hceq
      have hnull : c.name = Value.null := by
        by_contra hn
        exact hnone c hcc ⟨heq, hn⟩
      simp [hnull]

/-- Claim C10 witness: one sample from Peru with Peru present in the lookup;
the merged row exists and the theorem yields its coordinates. -/
theorem smp_data_coords_witness :
    (⟨Value.str "PE", Value.str "Peru", Value.int (-9), Value.int (-75)⟩
        : CountryRow) ∈
      [(⟨Value.str "PE", Value.str "Peru", Value.int (-9), Value.int (-75)⟩
        : CountryRow)] ∧
    ∃ m ∈ smp_data
        [⟨Value.str "S1", Value.str "Peru", Value.str "L1", Value.null,
          Value.null, Value.null, Value.null⟩]
        [⟨Value.str "PE", Value.str "Peru", Value.int (-9), Value.int (-75)⟩],
      m.name ≠ Value.null ∧ m.name = m.country_of_isolation ∧
      ∃ c ∈ [(⟨Value.str "PE", Value.str "Peru", Value.int (-9),
          Value.int (-75)⟩ : CountryRow)],
        c.name = m.name ∧ c.latitude = m.latitude ∧ c.longitude = m.longitude := by
  refine ⟨by decide, ?_⟩
  refine ⟨⟨Value.str "S1", Value.str "Peru", Value.str "L1", Value.null,
    Value.null, Value.null, Value.null, Value.str "Peru", Value.int (-9),
    Value.int (-75)⟩, by decide, ?_⟩
  exact (smp_data_coords
    [⟨Value.str "S1", Value.str "Peru", Value.str "L1", Value.null,
      Value.null, Value.null, Value.null⟩]
    [⟨Value.str "PE", Value.str "Peru", Value.int (-9), Value.int (-75)⟩]).1
    _ (by decide)

/-- Claim C3, counterexample: besides the try/except FileNotFoundError there
is a second handler — dropping the selection-marker column from a selection
that lacks it raises KeyError, which show_dataset catches and turns into an
info message while the function continues normally. -/
theorem error_handling_keyerror_counterexample :
    dropColumnOrKeyError ⟨["Sample"], [[Value.str "S1"]]⟩ "_selectedRowNodeInfo"
      = Except.error "KeyError" ∧
    (show_dataset_selection ⟨["Sample"], [[Value.str "S1"]]⟩).1.head? =
      some (Event.info "Select samples from the main dataframe") := by
  constructor
  · rfl
  · rfl

/-- Claim C3 (amended): the program has exactly two exception handlers — the
try/except FileNotFoundError around the VCF section (surfacing a warning)
and a try/except KeyError around dropping the selection-marker column
(surfacing an info message) — plus an if-guard that warns on an empty
filtered selection. -/
theorem error_handling_guards (fs : String → Option String) (sample : String)
    (sel : Frame)
    (hvcf : fs (vcfPath sample) = none)
    (hmark : "_selectedRowNodeInfo" ∉ sel.header) :
    sampleStatsVcfSection fs sample =
      [Event.warning "VCF file in not available"] ∧
    (show_dataset_selection sel).1.head? =
      some (Event.info "Select samples from the main dataframe") ∧
    (sel.rows.isEmpty = true →
      Event.warning "Subset dataframe is empty" ∈ (show_dataset_selection sel).1) := by
  refine ⟨by simp [sampleStatsVcfSection, hvcf], ?_, ?_⟩
  · simp only [show_dataset_selection, dropColumnOrKeyError, if_neg hmark]
    by_cases hrows : sel.rows.isEmpty <;> simp [hrows]
  · intro hrows
    simp [show_dataset_selection, dropColumnOrKeyError, if_neg hmark, hrows]

/-- Claim C3 witness: empty selection frame without the marker column and a
file system missing the VCF. -/
theorem error_handling_guards_witness :
    (fun _ : String => (none : Option String)) (vcfPath "S1") = none ∧
    "_selectedRowNodeInfo" ∉ (⟨["Sample"], []⟩ : Frame).header ∧
    (sampleStatsVcfSection (fun _ => none) "S1" =
        [Event.warning "VCF file in not available"] ∧
      (show_dataset_selection ⟨["Sample"], []⟩).1.head? =
        some (Event.info "Select samples from the main dataframe") ∧
      ((⟨["Sample"], []⟩ : Frame).rows.isEmpty = true →
        Event.warning "Subset dataframe is empty" ∈
          (show_dataset_selection ⟨["Sample"], []⟩).1)) :=
  ⟨rfl, by decide,
   error_handling_guards (fun _ => none) "S1" ⟨["Sample"], []⟩ rfl (by decide)⟩

/-! ## Round-trip of the CSV writer through the CSV reader -/

/-- Scanning an escaped field body: the doubled quotes collapse back and the
closing quote moves the scanner past the field. -/
theorem pAll_escQuote (sep : Char) (s : List Char) :
    ∀ (rest f r), pAll sep (escQuote s ++ '"' :: rest) PMode.quoted f r =
      pAll sep rest PMode.afterQuote (f ++ s) r := by
  induction s with
  | nil =>
    intro rest f r
    simp [escQuote, pAll]
  | cons c s ih =>
    intro rest f r
    by_cases hc : c = '"'
    · subst hc
      rw [show escQuote ('"' :: s) = '"' :: '"' :: escQuote s from by
        simp [escQuote]]
      simp only [List.cons_append]
      rw [show pAll sep
          ('"' :: '"' :: (escQuote s ++ '"' :: rest)) PMode.quoted f r =
          pAll sep (escQuote s ++ '"' :: rest) PMode.quoted (f ++ ['"']) r from by
        simp [pAll]]
      rw [ih]
      simp
    · simp only [escQuote, if_neg hc, List.cons_append]
      rw [show pAll sep (c :: (escQuote s ++ '"' :: rest)) PMode.quoted f r =
          pAll sep (escQuote s ++ '"' :: rest) PMode.quoted (f ++ [c]) r from by
        simp [pAll, hc]]
      rw [ih]
      simp

/-- Scanning an unquoted clean run (no separator, quote or newline): the
characters accumulate into the current field. -/
theorem pAll_clean (sep : Char) (s : List Char)
    (h : ∀ c ∈ s, c ≠ sep ∧ c ≠ '"' ∧ c ≠ '\n') :
    ∀ rest f r, pAll sep (s ++ rest) PMode.normal f r =
      pAll sep rest PMode.normal (f ++ s) r := by
  induction s with
  | nil =>
    intro rest f r
    simp
  | cons c s ih =>
    intro rest f r
    obtain ⟨h1, h2, h3⟩ := h c (List.mem_cons_self c s)
    have ih' := ih fun x hx => h x (List.mem_cons_of_mem c hx)
    simp only [List.cons_append]
    rw [show pAll sep (c :: (s ++ rest)) PMode.normal f r =
        pAll sep (s ++ rest) PMode.normal (f ++ [c]) r from by
      simp [pAll, h1, h2, h3]]
    rw [ih']
    simp

/-- A rendered field followed by the separator: the scanner closes the field
and opens the next one. -/
theorem pAll_field_sep (sep : Char) (hq : sep ≠ '"') (v : String) :
    ∀ rest f r, pAll sep (renderField sep v ++ sep :: rest) PMode.normal f r =
      pAll sep rest PMode.normal [] (r ++ [f ++ v.toList]) := by
  intro rest f r
  unfold renderField
  by_cases hnq : needsQuote sep v.toList = true
  · rw [if_pos hnq]
    rw [show ('"' :: (escQuote v.toList ++ ['"'])) ++ sep :: rest =
        '"' :: (escQuote v.toList ++ '"' :: (sep :: rest)) from by simp]
    rw [show pAll sep ('"' :: (escQuote v.toList ++ '"' :: (sep :: rest)))
        PMode.normal f r =
        pAll sep (escQuote v.toList ++ '"' :: (sep :: rest)) PMode.quoted f r
        from by simp [pAll]]
    rw [pAll_escQuote]
    simp [pAll, hq]
  · rw [if_neg hnq]
    have hclean : ∀ c ∈ v.toList, c ≠ sep ∧ c ≠ '"' ∧ c ≠ '\n' := by
      intro c hc
      have hfalse : needsQuote sep v.toList = false := by
        simpa using hnq
      have hc' := List.any_eq_false.mp hfalse c hc
      simp only [Bool.not_eq_true, Bool.or_eq_false_iff,
        decide_eq_false_iff_not] at hc'
      exact ⟨hc'.1.1.1, hc'.1.1.2, hc'.1.2⟩
    rw [pAll_clean sep v.toList hclean]
    simp [pAll, hq]

/-- A rendered field followed by a newline: the scanner closes the field and
emits the record. -/
theorem pAll_field_nl (sep : Char) (_hq : sep ≠ '"') (hn : sep ≠ '\n')
    (v : String) :
    ∀ rest f r, pAll sep (renderField sep v ++ '\n' :: rest) PMode.normal f r =
      (r ++ [f ++ v.toList]) :: pAll sep rest PMode.normal [] [] := by
  intro rest f r
  unfold renderField
  by_cases hnq : needsQuote sep v.toList = true
  · rw [if_pos hnq]
    rw [show ('"' :: (escQuote v.toList ++ ['"'])) ++ '\n' :: rest =
        '"' :: (escQuote v.toList ++ '"' :: ('\n' :: rest)) from by simp]
    rw [show pAll sep ('"' :: (escQuote v.toList ++ '"' :: ('\n' :: rest)))
        PMode.normal f r =
        pAll sep (escQuote v.toList ++ '"' :: ('\n' :: rest)) PMode.quoted f r
        from by simp [pAll]]
    rw [pAll_escQuote]
    simp [pAll, Ne.symm hn]
  · rw [if_neg hnq]
    have hclean : ∀ c ∈ v.toList, c ≠ sep ∧ c ≠ '"' ∧ c ≠ '\n' := by
      intro c hc
      have hfalse : needsQuote sep v.toList = false := by
        simpa using hnq
      have hc' := List.any_eq_false.mp hfalse c hc
      simp only [Bool.not_eq_true, Bool.or_eq_false_iff,
        decide_eq_false_iff_not] at hc'
      exact ⟨hc'.1.1.1, hc'.1.1.2, hc'.1.2⟩
    rw [pAll_clean sep v.toList hclean]
    simp [pAll, Ne.symm hn]

/-- A rendered record followed by a newline parses back to its list of raw
field texts. -/
theorem pAll_record (sep : Char) (hq : sep ≠ '"') (hn : sep ≠ '\n')
    (ss : List String) : ∀ (s : String) (rest r),
    pAll sep (renderRecord sep (s :: ss) ++ '\n' :: rest) PMode.normal [] r =
      (r ++ (s :: ss).map String.toList) :: pAll sep rest PMode.normal [] [] := by
  induction ss with
  | nil =>
    intro s rest r
    unfold renderRecord
    rw [pAll_field_nl sep hq hn]
    simp
  | cons s' ss ih =>
    intro s rest r
    rw [show renderRecord sep (s :: s' :: ss) =
        renderField sep s ++ sep :: renderRecord sep (s' :: ss) from rfl]
    rw [show (renderField sep s ++ sep :: renderRecord sep (s' :: ss))
          ++ '\n' :: rest =
        renderField sep s ++ sep :: (renderRecord sep (s' :: ss) ++ '\n' :: rest)
        from by simp]
    rw [pAll_field_sep sep hq]
    rw [ih]
    simp

/-- The rendered data section parses back into one record of raw field texts
per row. -/
theorem pAll_renderRows (sep : Char) (hq : sep ≠ '"') (hn : sep ≠ '\n') :
    ∀ rows : List (List Value), (∀ row ∈ rows, row ≠ []) →
    pAll sep (renderRows sep rows) PMode.normal [] [] =
      rows.map (fun row => (row.map renderCell).map String.toList) := by
  intro rows
  induction rows with
  | nil =>
    intro _
    rfl
  | cons row rows ih =>
    intro h
    have hne := h row (List.mem_cons_self row rows)
    obtain ⟨x, xs, rfl⟩ : ∃ x xs, row = x :: xs := by
      cases row with
      | nil => exact absurd rfl hne
      | cons x xs => exact ⟨x, xs, rfl⟩
    unfold renderRows
    simp only [List.map_cons]
    rw [pAll_record sep hq hn (xs.map renderCell) (renderCell x)]
    rw [ih fun w hw => h w (List.mem_cons_of_mem _ hw)]
    simp

/-- The header of a rendered table is never a blank line when the header is
nonempty and not a lone empty name; likewise for each rendered row. -/
theorem map_toList_ne_blank {l : List String} (h0 : l ≠ []) (h1 : l ≠ [""]) :
    l.map String.toList ≠ [([] : List Char)] := by
  intro hcontra
  cases l with
  | nil => exact h0 rfl
  | cons s t =>
    cases t with
    | nil =>
      have hs : s.toList = [] := by simpa using hcontra
      have hse : s = "" := by
        have h2 := congrArg List.asString hs
        rwa [String.asString_toList] at h2
      exact h1 (by rw [hse])
    | cons s' t' => simp at hcontra

/-- A rendered table splits back into its header record followed by one
record per row, each holding the rendered cell texts. -/
theorem parseRecords_render (sep : Char) (hq : sep ≠ '"') (hn : sep ≠ '\n')
    (f : Frame) (hh : f.header ≠ []) (hhb : f.header ≠ [""])
    (hrne : ∀ row ∈ f.rows, row ≠ [])
    (hrb : ∀ row ∈ f.rows, row.map renderCell ≠ [""]) :
    parseRecords sep (renderTable sep f) =
      f.header :: f.rows.map (fun row => row.map renderCell) := by
  obtain ⟨h0, hs, hhd⟩ : ∃ h0 hs, f.header = h0 :: hs := by
    cases hh' : f.header with
    | nil => exact absurd hh' hh
    | cons h0 hs => exact ⟨h0, hs, rfl⟩
  unfold parseRecords renderTable
  rw [List.toList_asString, hhd]
  rw [pAll_record sep hq hn hs h0]
  rw [pAll_renderRows sep hq hn f.rows hrne]
  rw [List.nil_append]
  have hfilter :
      ((((h0 :: hs).map String.toList) ::
          f.rows.map (fun row => (row.map renderCell).map String.toList)).filter
        (fun g => g ≠ [([] : List Char)])) =
      (((h0 :: hs).map String.toList) ::
          f.rows.map (fun row => (row.map renderCell).map String.toList)) := by
    rw [List.filter_eq_self]
    intro g hg
    rw [List.mem_cons] at hg
    rcases hg with hg | hg
    · subst hg
      exact decide_eq_true (map_toList_ne_blank (hhd ▸ hh) (hhd ▸ hhb))
    · rw [List.mem_map] at hg
      obtain ⟨row, hrow, rfl⟩ := hg
      exact decide_eq_true (map_toList_ne_blank
        (by simpa using hrne row hrow) (hrb row hrow))
  rw [hfilter]
  have hdata : ∀ s : String, s.data.asString = s := fun s => String.asString_toList s
  simp [List.map_map, Function.comp, String.toList, hdata, hhd]
  calc List.map (List.asString ∘ String.toList) hs
      = List.map id hs := List.map_congr_left fun s _ => String.asString_toList s
    _ = hs := List.map_id hs

/-- A row of stable cells re-infers to itself after rendering. -/
theorem infer_render_row (row : List Value)
    (h : ∀ v ∈ row, stableCell v = true) :
    (row.map renderCell).map inferValue = row := by
  induction row with
  | nil => rfl
  | cons v row ih =>
    have hv := h v (List.mem_cons_self v row)
    have hv' : inferValue (renderCell v) = v := by
      have := (Bool.and_eq_true _ _).mp hv
      exact eq_of_beq this.1
    simp only [List.map_cons, hv']
    rw [ih fun w hw => h w (List.mem_cons_of_mem _ hw)]

/-- Writing a frame of stable cells and reading it back yields the frame. -/
theorem parse_render (sep : Char) (f : Frame)
    (hq : sep ≠ '"') (hn : sep ≠ '\n')
    (hh : f.header ≠ []) (hhb : f.header ≠ [""])
    (hrne : ∀ row ∈ f.rows, row ≠ [])
    (hrb : ∀ row ∈ f.rows, row.map renderCell ≠ [""])
    (hstable : ∀ row ∈ f.rows, ∀ v ∈ row, stableCell v = true) :
    parseTable sep (renderTable sep f) = some f := by
  have hrows : (f.rows.map (fun row => row.map renderCell)).map
      (fun g => g.map inferValue) = f.rows := by
    rw [List.map_map]
    have : ∀ row ∈ f.rows,
        ((fun g => g.map inferValue) ∘ fun row => row.map renderCell) row = row := by
      intro row hrow
      exact infer_render_row row (hstable row hrow)
    calc f.rows.map ((fun g => g.map inferValue) ∘ fun row => row.map renderCell)
        = f.rows.map id := List.map_congr_left this
      _ = f.rows := List.map_id _
  unfold parseTable
  rw [parseRecords_render sep hq hn f hh hhb hrne hrb]
  show some ⟨f.header,
    (f.rows.map (fun row => row.map renderCell)).map (fun g => g.map inferValue)⟩
    = some f
  rw [hrows]

/-- Claim C2, counterexample: export does not round-trip exactly for every
displayed dataframe — a string cell "1" is written as the bare text 1 and
read back as the integer 1, so the parsed table differs from the original. -/
theorem csv_roundtrip_counterexample :
    parseTable ',' (convert_df_to_csv ⟨["A"], [[Value.str "1"]]⟩) =
      some ⟨["A"], [[Value.int 1]]⟩ ∧
    parseTable ',' (convert_df_to_csv ⟨["A"], [[Value.str "1"]]⟩) ≠
      some ⟨["A"], [[Value.str "1"]]⟩ := by
  constructor
  · decide
  · decide

/-- Claim C2 (amended): the bytes of convert_df_to_csv (resp.
convert_df_to_tsv) parse back to a table equal to the displayed one provided
the reader's type inference is the identity on the table: every cell's
rendered text re-infers to the same value (so no string cell is empty,
numeral-shaped, float/bool/infinity-shaped or an NA token), no column mixes
integer and string cells, the header is nonempty, duplicate-free and without
empty names, rows match the header width, and no row prints as a blank line.
Without these provisos the round-trip can change cell types, as the
counterexample shows. -/
theorem csv_tsv_roundtrip (f : Frame)
    (hhead : f.header ≠ [])
    (hnoempty : "" ∉ f.header)
    (_hnodup : f.header.Nodup)
    (hlen : ∀ row ∈ f.rows, row.length = f.header.length)
    (hstable : ∀ row ∈ f.rows, ∀ v ∈ row, stableCell v = true)
    (_hcols : ∀ j < f.header.length, columnOk (columnAt f j) = true)
    (hblank : ∀ row ∈ f.rows, row.map renderCell ≠ [""]) :
    parseTable ',' (convert_df_to_csv f) = some f ∧
    parseTable '\t' (convert_df_to_tsv f) = some f := by
  have hrne : ∀ row ∈ f.rows, row ≠ [] := by
    intro row hr hnil
    have hl := hlen row hr
    rw [hnil] at hl
    exact hhead (List.length_eq_zero.mp hl.symm)
  have hhb : f.header ≠ [""] := by
    intro hcontra
    exact hnoempty (by rw [hcontra]; exact List.mem_singleton_self "")
  exact ⟨parse_render ',' f (by decide) (by decide) hhead hhb hrne hblank hstable,
         parse_render '\t' f (by decide) (by decide) hhead hhb hrne hblank hstable⟩

/-- Claim C2 witness: a two-column table with quoting-heavy string cells, an
integer cell and a missing cell round-trips through both exports. -/
theorem csv_tsv_roundtrip_witness :
    ((⟨["Sample", "no. of SNPs"],
        [[Value.str "ERR-1", Value.int 1296],
         [Value.str "a,b\t\"x\"", Value.null]]⟩ : Frame).header ≠ [] ∧
      "" ∉ (⟨["Sample", "no. of SNPs"],
        [[Value.str "ERR-1", Value.int 1296],
         [Value.str "a,b\t\"x\"", Value.null]]⟩ : Frame).header) ∧
    (parseTable ',' (convert_df_to_csv
        ⟨["Sample", "no. of SNPs"],
         [[Value.str "ERR-1", Value.int 1296],
          [Value.str "a,b\t\"x\"", Value.null]]⟩) =
      some ⟨["Sample", "no. of SNPs"],
        [[Value.str "ERR-1", Value.int 1296],
         [Value.str "a,b\t\"x\"", Value.null]]⟩ ∧
     parseTable '\t' (convert_df_to_tsv
        ⟨["Sample", "no. of SNPs"],
         [[Value.str "ERR-1", Value.int 1296],
          [Value.str "a,b\t\"x\"", Value.null]]⟩) =
      some ⟨["Sample", "no. of SNPs"],
        [[Value.str "ERR-1", Value.int 1296],
         [Value.str "a,b\t\"x\"", Value.null]]⟩) :=
  ⟨⟨by decide, by decide⟩,
   csv_tsv_roundtrip
     ⟨["Sample", "no. of SNPs"],
      [[Value.str "ERR-1", Value.int 1296],
       [Value.str "a,b\t\"x\"", Value.null]]⟩
     (by decide) (by decide) (by decide)
     (by decide) (by decide) (by decide) (by decide)⟩

end TBGen
